import Mathlib

/-!
Verification of the token issuance / validation / rotation / reuse-detection core of
the social-todo backend (package `auth`).

The handler layer (`Register`, `ValidateRefreshToken`, `ValidateAndGenerateTokens`,
`AuthenticateMiddleware`, `Logout`) is transcribed directly from the Go source.
The service layer it calls (`ValidateToken`, `GenerateTokens`, `CheckIfTokenUsed`,
`UseToken`, `InvalidateTokens`) and the credential store are not in the source tree;
they are modelled from the specification (each such definition carries a doc comment
starting `Modelled from the spec:`).

Token strings are modelled by their decoded structure: the codec signs the fields
(spec §4.1), so the canonical serialized string of a genuine token is injective in its
fields, and any junk or forged string behaves exactly like a token whose signature
does not verify (`genuine = false`). Go's multiple-return convention is kept: a
failing call returns zero values ("" and 0) next to a non-nil error.
-/

namespace SocialTodo

/-- Token class carried inside a signed token (spec §3): access or refresh. -/
inductive TokenClass
  | access
  | refresh
deriving DecidableEq

/-- Modelled from the spec: the signed token of §3 — subject (principal id), the epoch
counter in effect at issuance, the token class, an absolute expiry, and a signature
binding those fields. `genuine` records whether the signature verifies against the
service key; forged or undecodable strings are tokens with `genuine = false`. -/
structure Token where
  subject : String
  epoch : Nat
  cls : TokenClass
  expiry : Nat
  genuine : Bool
deriving DecidableEq

/-- The user record from `types.go` (`User`): the token-relevant fields
`RefreshToken`, `TokenUsed`, `Count` plus the profile fields that `Register` fills.
The opaque CRUD payloads (categories, activity documents) are modelled as opaque
list elements, matching their role as out-of-scope collaborator data (spec §1). -/
structure User where
  email : String
  password : String
  refreshToken : Token
  tokenUsed : Bool
  count : Nat
  categories : List Unit
  friends : List String
  tasksComplete : Nat
  recentActivity : List Unit
  displayName : String
  handle : String
  profilePicture : String
deriving DecidableEq

/-- Modelled from the spec: the credential store (§2, §6) keyed by principal id. -/
abbrev Store := List (String × User)

/-- Modelled from the spec: store lookup by principal id (`getEpoch` / `getRefreshState`
read through this; mongo `_id` keys are unique). -/
def lookupUser (s : Store) (id : String) : Option User :=
  match s with
  | [] => none
  | (k, u) :: rest => if k = id then some u else lookupUser rest id

/-- Modelled from the spec: pointwise update of the record stored under `id`. -/
def updateUser (s : Store) (id : String) (f : User → User) : Store :=
  match s with
  | [] => []
  | (k, u) :: rest =>
      if k = id then (k, f u) :: updateUser rest id f else (k, u) :: updateUser rest id f

/-- A `fiber.NewError(code, message)` value: the failure shape the client sees. -/
structure FiberError where
  code : Nat
  message : String
deriving DecidableEq

/-- Access-token lifetime (deployment configuration; the spec only demands it be
strictly shorter than the refresh lifetime). -/
def accessTTL : Nat := 900

/-- Refresh-token lifetime (deployment configuration). -/
def refreshTTL : Nat := 604800

/-- Modelled from the spec: `validate(token) → (subject, epoch) | Unauthorized` (§4.2) —
verify signature and expiry via the codec (§4.1, zero tolerance past expiry), load the
principal record, and require the token epoch to equal the record's current count.
Returned in Go style as `(user_id, count, err)` with zero values next to an error. -/
def ValidateToken (tok : Token) (s : Store) (now : Nat) : String × Nat × Option String :=
  if tok.genuine = false then ("", 0, some ("token signature invalid"))
  else if tok.expiry ≤ now then ("", 0, some ("token expired"))
  else
    match lookupUser s tok.subject with
    | none => ("", 0, some ("user not found"))
    | some u =>
        if tok.epoch = u.count then (tok.subject, tok.epoch, none)
        else ("", 0, some ("token invalidated"))

/-- Modelled from the spec: `issueInitialPair` (§4.2) — issue an access and a refresh
token bound to the supplied epoch with absolute expiries `now + ttl`, and persist the
refresh token as `currentRefreshToken` with `refreshUsed = false`. Issuance never
fails short of fatal key unavailability, so it is total; when the principal has no
record yet (registration issues tokens before the user document exists) there is
nothing to update and `Register` persists the token through its user document. -/
def GenerateTokens (user_id : String) (count : Nat) (s : Store) (now : Nat) :
    Token × Token × Store :=
  let access : Token :=
    { subject := user_id, epoch := count, cls := TokenClass.access,
      expiry := now + accessTTL, genuine := true }
  let refresh : Token :=
    { subject := user_id, epoch := count, cls := TokenClass.refresh,
      expiry := now + refreshTTL, genuine := true }
  (access, refresh,
    updateUser s user_id (fun u => { u with refreshToken := refresh, tokenUsed := false }))

/-- Modelled from the spec: read the reuse flag of §3 (`getRefreshState`); an unknown
principal is a store-level failure surfaced as an error (§7). -/
def CheckIfTokenUsed (user_id : String) (s : Store) : Bool × Option String :=
  match lookupUser s user_id with
  | none => (false, some ("user not found"))
  | some u => (u.tokenUsed, none)

/-- Modelled from the spec: mark `record.refreshUsed = true` (§4.2 rotate step 4);
an unknown principal is a store-level failure surfaced as an error (§7). -/
def UseToken (user_id : String) (s : Store) : Except String Store :=
  match lookupUser s user_id with
  | none => Except.error ("user not found")
  | some _ => Except.ok (updateUser s user_id (fun u => { u with tokenUsed := true }))

/-- Modelled from the spec: `invalidateAll(subject)` (§4.2) — increment the epoch
counter by exactly one (`bumpEpoch` in §6). -/
def InvalidateTokens (user_id : String) (s : Store) : Except String Store :=
  match lookupUser s user_id with
  | none => Except.error ("user not found")
  | some _ => Except.ok (updateUser s user_id (fun u => { u with count := u.count + 1 }))

/-- The validated register request body (`types.go`). -/
structure RegisterRequest where
  email : String
  password : String
deriving DecidableEq

/-- The observable HTTP response: status code, the response headers added by the
handler (each carrying a token), and the body. -/
structure Response where
  status : Nat
  headers : List (String × Token)
  body : String
deriving DecidableEq

/-- The profile picture URL hard-coded in `Register`. -/
def defaultProfilePicture : String :=
  "https://i.pinimg.com/736x/bd/46/35/bd463547b9ae986ba4d44d717828eb09.jpg"

/-- `Register` transcribed from the source. The collaborator outcomes that are not
functions of the store — body parsing, request validation, `user.Validate()`, and the
`CreateUser` insert fault — enter as explicit oracle arguments (`parseOk`,
`validationErrs`, `userValidateErr`, `createErr`), mirroring the source's branch
structure. `GenerateTokens` is modelled total, so its dead error branch is dropped.
Headers are added to the response before `user.Validate()` and `CreateUser` run,
exactly as in the source (lines 69–70 precede lines 91–98). -/
def Register (parseOk : Bool) (validationErrs : List String)
    (userValidateErr : Option String) (createErr : Option String)
    (req : RegisterRequest) (newId : String) (s : Store) (now : Nat) : Response × Store :=
  if parseOk = false then ({ status := 400, headers := [], body := "Invalid JSON" }, s)
  else if validationErrs ≠ [] then
    ({ status := 400, headers := [], body := "Validation Errors" }, s)
  else
    let g := GenerateTokens newId 0 s now
    let headers := [("access_token", g.1), ("refresh_token", g.2.1)]
    let user : User :=
      { email := req.email, password := req.password, refreshToken := g.2.1,
        tokenUsed := false, count := 0, categories := [], friends := [],
        tasksComplete := 0, recentActivity := [], displayName := "Default Username",
        handle := "@default", profilePicture := defaultProfilePicture }
    match userValidateErr with
    | some _ => ({ status := 400, headers := headers, body := "Bad Request" }, g.2.2)
    | none =>
        match createErr with
        | some _ => ({ status := 400, headers := headers, body := "Bad Request" }, g.2.2)
        | none =>
            ({ status := 200, headers := headers, body := "User Created Successfully" },
              (newId, user) :: g.2.2)

/-- `ValidateRefreshToken` transcribed from the source (lines 162–176). Note that it
returns only the count: the `user_id` recovered from the refresh token is used for the
reuse check and then discarded. -/
def ValidateRefreshToken (refreshToken : Token) (s : Store) (now : Nat) :
    Nat × Option FiberError :=
  let vr := ValidateToken refreshToken s now
  match vr.2.2 with
  | some e =>
      (0, some ⟨400, "Not Authorized: Access and Refresh Tokens are Expired " ++ e⟩)
  | none =>
      let cu := CheckIfTokenUsed vr.1 s
      match cu.2 with
      | some e =>
          (0, some ⟨400, "Not Authorized, Error Validating Token Reusage " ++ e⟩)
      | none =>
          if cu.1 then (0, some ⟨400, "Not Authorized, Token Reuse Detected"⟩)
          else (vr.2.1, none)

/-- `ValidateAndGenerateTokens` transcribed from the source (lines 183–207). The Go
assignment `count, err = h.ValidateRefreshToken(c, refreshToken)` reassigns only
`count` and `err`: `user_id` keeps the value produced by the failed access-token
validation. `GenerateTokens` is modelled total, so the source's dead
"Error Generating Tokens" branch (lines 198–200) is dropped. -/
def ValidateAndGenerateTokens (accessToken refreshToken : Token) (s : Store)
    (now : Nat) : Except FiberError (Token × Token × Store) :=
  let va := ValidateToken accessToken s now
  let user_id := va.1
  let fb : Nat × Option FiberError :=
    match va.2.2 with
    | some _ => ValidateRefreshToken refreshToken s now
    | none => (va.2.1, none)
  match fb.2 with
  | some e => Except.error e
  | none =>
      let g := GenerateTokens user_id fb.1 s now
      match UseToken user_id g.2.2 with
      | Except.error _ =>
          Except.error ⟨400, "Not Authorized, Error Updating Token Usage"⟩
      | Except.ok s2 => Except.ok (g.1, g.2.1, s2)

/-- The shape of the `Authorization` header after the source's split-and-check logic:
an absent header, a header whose space-split does not have exactly two parts, or a
token type together with the access-token string. -/
inductive AuthHeader
  | missing
  | malformed
  | pair (tokenType : String) (accessToken : Token)
deriving DecidableEq

/-- Outcome of the middleware: either the request proceeds (`c.Next()`) with the new
pair attached to the response and the updated store, or it is rejected. -/
inductive MiddlewareResult
  | ok (access refresh : Token) (s : Store)
  | err (e : FiberError)
deriving DecidableEq

/-- `AuthenticateMiddleware` transcribed from the source (lines 132–160). -/
def AuthenticateMiddleware (header : AuthHeader) (refreshToken : Token) (s : Store)
    (now : Nat) : MiddlewareResult :=
  match header with
  | AuthHeader.missing => MiddlewareResult.err ⟨400, "Not Authorized, Tokens not passed"⟩
  | AuthHeader.malformed =>
      MiddlewareResult.err ⟨400, "Not Authorized, Invalid Token Format"⟩
  | AuthHeader.pair tokenType accessToken =>
      if tokenType ≠ "Bearer" then
        MiddlewareResult.err ⟨400, "Not Authorized, Invalid Token Type"⟩
      else
        match ValidateAndGenerateTokens accessToken refreshToken s now with
        | Except.error e => MiddlewareResult.err e
        | Except.ok (access, refresh, s2) => MiddlewareResult.ok access refresh s2

/-- `Logout` transcribed from the source (lines 214–241). Raw service errors are
returned unwrapped in the source (fiber reports them with status 500). -/
def Logout (header : AuthHeader) (s : Store) (now : Nat) :
    Except FiberError (String × Store) :=
  match header with
  | AuthHeader.missing => Except.error ⟨400, "Not Authorized, Tokens not passed"⟩
  | AuthHeader.malformed => Except.error ⟨400, "Not Authorized, Invalid Token Format"⟩
  | AuthHeader.pair tokenType accessToken =>
      if tokenType ≠ "Bearer" then
        Except.error ⟨400, "Not Authorized, Invalid Token Type"⟩
      else
        let v := ValidateToken accessToken s now
        match v.2.2 with
        | some e => Except.error ⟨500, e⟩
        | none =>
            match InvalidateTokens v.1 s with
            | Except.error e => Except.error ⟨500, e⟩
            | Except.ok s2 => Except.ok ("Logout Successful", s2)

/-! ### Concrete scenario used by the claim theorems and witnesses -/

/-- A concrete principal id (a mongo ObjectID hex string). -/
def aliceId : String := "507f1f77bcf86cd799439011"

/-- The refresh token currently stored for the concrete principal. -/
def R1 : Token :=
  { subject := aliceId, epoch := 0, cls := TokenClass.refresh, expiry := 1000,
    genuine := true }

/-- An access token for the concrete principal whose signature does not verify. -/
def badAccess : Token :=
  { subject := aliceId, epoch := 0, cls := TokenClass.access, expiry := 1000,
    genuine := false }

/-- A valid access token for the concrete principal. -/
def goodAccess : Token :=
  { subject := aliceId, epoch := 0, cls := TokenClass.access, expiry := 1000,
    genuine := true }

/-- A refresh token whose signature does not verify. -/
def forgedRefresh : Token :=
  { subject := aliceId, epoch := 0, cls := TokenClass.refresh, expiry := 1000,
    genuine := false }

/-- The concrete principal record: epoch 0, live refresh token `R1`. -/
def alice : User :=
  { email := "alice@example.com", password := "password123", refreshToken := R1,
    tokenUsed := false, count := 0, categories := [], friends := [],
    tasksComplete := 0, recentActivity := [], displayName := "Alice",
    handle := "@alice", profilePicture := "" }

/-- A store holding just the concrete principal. -/
def store0 : Store := [(aliceId, alice)]

/-- A record stored under the empty-string id — the zero value `ValidateToken`
returns as `user_id` alongside an error. -/
def ghostRec : User := { alice with email := "", handle := "@ghost" }

/-- A store holding the concrete principal and a record under the empty id. -/
def store1 : Store := [(aliceId, alice), ("", ghostRec)]

/-- The store produced by running the middleware on `store1` with an invalid access
token and the live refresh token `R1` at time 10: only the empty-id record changes. -/
def store1After : Store :=
  [(aliceId, alice),
   ("", { ghostRec with
            refreshToken :=
              { subject := "", epoch := 0, cls := TokenClass.refresh,
                expiry := 604810, genuine := true },
            tokenUsed := true })]

/-- The concrete principal after its refresh token has been burned. -/
def aliceUsed : User := { alice with tokenUsed := true }

/-- A store in which the concrete principal's refresh token is already burned. -/
def storeUsed : Store := [(aliceId, aliceUsed)]

/-- The concrete principal holding a stored refresh token different from `R1`. -/
def aliceMism : User :=
  { alice with
      refreshToken :=
        { subject := aliceId, epoch := 0, cls := TokenClass.refresh, expiry := 2000,
          genuine := true } }

/-- A store where the stored refresh token differs from the presented `R1`. -/
def storeMism : Store := [(aliceId, aliceMism)]

/-- The concrete principal after a successful authenticated request at time 10:
the fresh refresh token is stored but the used flag ends up true. -/
def aliceAfter : User :=
  { alice with
      refreshToken :=
        { subject := aliceId, epoch := 0, cls := TokenClass.refresh, expiry := 604810,
          genuine := true },
      tokenUsed := true }

/-! ### Helper lemmas -/

/-- Updating a record and reading it back yields the mapped record. -/
theorem lookupUser_updateUser (s : Store) (id : String) (f : User → User) :
    lookupUser (updateUser s id f) id = (lookupUser s id).map f := by
  induction s with
  | nil => rfl
  | cons p rest ih =>
      obtain ⟨k, u⟩ := p
      by_cases h : k = id <;> simp [lookupUser, updateUser, h, ih]

/-- `ValidateToken` either fails with zero values or succeeds returning the token's
own subject and epoch, the latter only when the stored record carries that epoch. -/
theorem validateToken_shape (tok : Token) (s : Store) (now : Nat) :
    (∃ m, ValidateToken tok s now = ("", 0, some m)) ∨
    (ValidateToken tok s now = (tok.subject, tok.epoch, none) ∧
      ∃ u, lookupUser s tok.subject = some u ∧ u.count = tok.epoch) := by
  by_cases h1 : tok.genuine = false
  · exact Or.inl ⟨"token signature invalid", by simp [ValidateToken, h1]⟩
  · by_cases h2 : tok.expiry ≤ now
    · exact Or.inl ⟨"token expired", by simp [ValidateToken, h1, h2]⟩
    · cases h3 : lookupUser s tok.subject with
      | none => exact Or.inl ⟨"user not found", by simp [ValidateToken, h1, h2, h3]⟩
      | some u =>
          by_cases h4 : tok.epoch = u.count
          · refine Or.inr ⟨?_, ⟨u, rfl, h4.symm⟩⟩
            simp [ValidateToken, h1, h2, h3, h4]
          · exact Or.inl ⟨"token invalidated", by simp [ValidateToken, h1, h2, h3, h4]⟩

/-- A failing `ValidateToken` call returns the full zero-value triple. -/
theorem validateToken_of_err (tok : Token) (s : Store) (now : Nat)
    (h : (ValidateToken tok s now).2.2.isSome) :
    ∃ m, ValidateToken tok s now = ("", 0, some m) := by
  rcases validateToken_shape tok s now with ⟨m, hm⟩ | ⟨hok, _⟩
  · exact ⟨m, hm⟩
  · rw [hok] at h
    simp at h

/-- A succeeding `ValidateToken` call returns the token's subject and epoch, and the
stored record carries that epoch. -/
theorem validateToken_of_ok (tok : Token) (s : Store) (now : Nat)
    (h : (ValidateToken tok s now).2.2 = none) :
    ValidateToken tok s now = (tok.subject, tok.epoch, none) ∧
      ∃ u, lookupUser s tok.subject = some u ∧ u.count = tok.epoch := by
  rcases validateToken_shape tok s now with ⟨m, hm⟩ | hok
  · rw [hm] at h
    simp at h
  · exact hok

/-- Every rejection produced by `ValidateRefreshToken` carries status code 400. -/
theorem validateRefreshToken_err_shape (rt : Token) (s : Store) (now : Nat) :
    (ValidateRefreshToken rt s now).2 = none ∨
    ∃ msg, (ValidateRefreshToken rt s now).2 = some ⟨400, msg⟩ := by
  simp only [ValidateRefreshToken]
  split
  · exact Or.inr ⟨_, rfl⟩
  · split
    · exact Or.inr ⟨_, rfl⟩
    · split
      · exact Or.inr ⟨_, rfl⟩
      · exact Or.inl rfl

/-- Every rejection produced by `ValidateAndGenerateTokens` carries status code 400. -/
theorem validateAndGenerateTokens_err_code (accessToken rt : Token) (s : Store)
    (now : Nat) (e : FiberError)
    (h : ValidateAndGenerateTokens accessToken rt s now = Except.error e) :
    e.code = 400 := by
  rcases hva : (ValidateToken accessToken s now).2.2 with _ | m
  · simp only [ValidateAndGenerateTokens, hva] at h
    split at h
    · cases h
      rfl
    · cases h
  · rcases hr : ValidateRefreshToken rt s now with ⟨cnt, err⟩
    simp only [ValidateAndGenerateTokens, hva, hr] at h
    rcases err with _ | e2
    · simp only at h
      split at h
      · cases h
        rfl
      · cases h
    · injection h with h2
      subst h2
      rcases validateRefreshToken_err_shape rt s now with hsh | ⟨msg, hsh⟩ <;>
        rw [hr] at hsh <;> simp only at hsh
      · exact Option.noConfusion hsh
      · injection hsh with h3
        rw [h3]

/-! ### Claim theorems -/

/-- C1: the claim fails on the code. With a record stored under the empty-string id —
the zero value `ValidateToken` returns as `user_id` alongside an error — the same
refresh token `R1` is redeemed twice: both rotate calls succeed with fresh pairs and
neither returns the reuse error, because `ValidateRefreshToken` discards the refresh
token's subject, so `UseToken` burns the empty-id record and the presented token's
principal keeps `tokenUsed = false` after the first redemption. -/
theorem c1_same_refresh_token_redeemed_twice :
    ValidateAndGenerateTokens badAccess R1 store1 10 =
      Except.ok (⟨"", 0, TokenClass.access, 910, true⟩,
        ⟨"", 0, TokenClass.refresh, 604810, true⟩, store1After) ∧
    (∃ a2 r2 s3, ValidateAndGenerateTokens badAccess R1 store1After 10 =
      Except.ok (a2, r2, s3)) ∧
    (lookupUser store1After aliceId).map User.tokenUsed = some false :=
  ⟨rfl, ⟨_, _, _, rfl⟩, rfl⟩

/-- C4: the claim fails on the code for the rotate path. A successful authenticated
request (valid access token) generates a fresh pair and stores the new refresh token,
but `UseToken` runs after `GenerateTokens`, so the record ends with
`tokenUsed = true`: the newly issued refresh token is flagged used the moment it is
stored, and is not itself redeemable. -/
theorem c4_successful_issuance_leaves_flag_used :
    ValidateAndGenerateTokens goodAccess R1 store0 10 =
      Except.ok (⟨aliceId, 0, TokenClass.access, 910, true⟩,
        ⟨aliceId, 0, TokenClass.refresh, 604810, true⟩, [(aliceId, aliceAfter)]) ∧
    aliceAfter.tokenUsed = true ∧
    aliceAfter.refreshToken = ⟨aliceId, 0, TokenClass.refresh, 604810, true⟩ :=
  ⟨rfl, rfl, rfl⟩

/-- C6 counterexample: the claim fails on the code. Two rejected rotate paths in the
same store produce different client-visible errors, and the reuse rejection carries
the distinct message "Not Authorized, Token Reuse Detected", so rejection responses
are not uniform and do reveal which check failed. -/
theorem c6_counterexample_distinct_failure_messages :
    ValidateAndGenerateTokens badAccess R1 storeUsed 10 =
      Except.error ⟨400, "Not Authorized, Token Reuse Detected"⟩ ∧
    ValidateAndGenerateTokens badAccess forgedRefresh storeUsed 10 =
      Except.error ⟨400,
        "Not Authorized: Access and Refresh Tokens are Expired token signature invalid"⟩ ∧
    ("Not Authorized, Token Reuse Detected" : String) ≠
      "Not Authorized: Access and Refresh Tokens are Expired token signature invalid" :=
  ⟨rfl, rfl, by decide⟩

/-- C6 amended: every rejected authentication path is uniform only in its HTTP status
code, which is always 400; the messages differ per failing check (see the
counterexample), with the reuse rejection carrying its own distinct message. -/
theorem c6_amended_rejections_uniform_in_status_only
    (header : AuthHeader) (rt : Token) (s : Store) (now : Nat) (e : FiberError)
    (h : AuthenticateMiddleware header rt s now = MiddlewareResult.err e) :
    e.code = 400 := by
  cases header with
  | missing =>
      cases h
      rfl
  | malformed =>
      cases h
      rfl
  | pair tokenType accessToken =>
      simp only [AuthenticateMiddleware] at h
      by_cases ht : tokenType = "Bearer"
      · simp only [ht, ne_eq, not_true_eq_false, if_false] at h
        rcases hv : ValidateAndGenerateTokens accessToken rt s now with e2 | ⟨a, r, s2⟩ <;>
          rw [hv] at h
        · injection h with h2
          subst h2
          exact validateAndGenerateTokens_err_code accessToken rt s now e2 hv
        · cases h
      · simp only [ne_eq, ht, not_false_eq_true, if_true] at h
        injection h with h2
        subst h2
        rfl

/-- C6 amended witness: the rejection for a missing Authorization header has status
code 400. -/
theorem c6_amended_witness :
    (⟨400, "Not Authorized, Tokens not passed"⟩ : FiberError).code = 400 :=
  c6_amended_rejections_uniform_in_status_only AuthHeader.missing R1 store0 10 _ rfl

/-- C9: confirmed. A fully successful registration stores a record whose count is 0,
whose used flag is false, and whose stored refresh token is exactly the refresh token
placed in the response headers (the second issued token). -/
theorem c9_register_creates_epoch_zero_record
    (req : RegisterRequest) (newId : String) (s : Store) (now : Nat) :
    (lookupUser (Register true [] none none req newId s now).2 newId).map User.count =
      some 0 ∧
    (lookupUser (Register true [] none none req newId s now).2 newId).map
      User.tokenUsed = some false ∧
    (lookupUser (Register true [] none none req newId s now).2 newId).map
      User.refreshToken = some (GenerateTokens newId 0 s now).2.1 ∧
    (Register true [] none none req newId s now).1.headers =
      [("access_token", (GenerateTokens newId 0 s now).1),
       ("refresh_token", (GenerateTokens newId 0 s now).2.1)] := by
  refine ⟨?_, ?_, ?_, ?_⟩ <;> simp [Register, lookupUser]

/-- C10: the claim fails on the code already in the degenerate sequential case N = 1:
a single rotate call presenting the live, unused refresh token passes
`ValidateRefreshToken`, yet the call as a whole fails (zero winners instead of
exactly one), because the burn targets the discarded zero-value user id. -/
theorem c10_single_rotate_call_yields_zero_successes :
    ValidateRefreshToken R1 store0 10 = (0, none) ∧
    ValidateAndGenerateTokens badAccess R1 store0 10 =
      Except.error ⟨400, "Not Authorized, Error Updating Token Usage"⟩ :=
  ⟨rfl, rfl⟩

/-- C2: confirmed. When the access token fails, the presented refresh token passes
signature/expiry/epoch verification, the principal's used flag is false, and the
presented token differs from the stored `currentRefreshToken`, the rotate call
returns a 400 error distinct from the reuse rejection and issues no pair. (The store
never holds a record under the empty-string id: principal ids are ObjectID hex
strings.) The code reaches this outcome without ever comparing the presented token
to the stored one: the rejection arises at the token-usage update step. -/
theorem c2_mismatched_refresh_token_rejected
    (accessToken rt : Token) (s : Store) (now : Nat) (u : User)
    (hwf : lookupUser s "" = none)
    (hacc : (ValidateToken accessToken s now).2.2.isSome)
    (hrt : (ValidateToken rt s now).2.2 = none)
    (hu : lookupUser s rt.subject = some u)
    (hunused : u.tokenUsed = false)
    (_hmismatch : u.refreshToken ≠ rt) :
    ValidateAndGenerateTokens accessToken rt s now =
      Except.error ⟨400, "Not Authorized, Error Updating Token Usage"⟩ ∧
    (⟨400, "Not Authorized, Error Updating Token Usage"⟩ : FiberError) ≠
      ⟨400, "Not Authorized, Token Reuse Detected"⟩ := by
  obtain ⟨m, hva⟩ := validateToken_of_err accessToken s now hacc
  obtain ⟨hvr, -⟩ := validateToken_of_ok rt s now hrt
  refine ⟨?_, by decide⟩
  have hcu : CheckIfTokenUsed rt.subject s = (false, none) := by
    simp [CheckIfTokenUsed, hu, hunused]
  have hvrt : ValidateRefreshToken rt s now = (rt.epoch, none) := by
    simp only [ValidateRefreshToken]
    rw [hvr]
    dsimp only
    rw [hcu]
    rfl
  have huse : UseToken "" (GenerateTokens "" rt.epoch s now).2.2 =
      Except.error ("user not found") := by
    simp only [UseToken, GenerateTokens]
    try dsimp only
    rw [lookupUser_updateUser, hwf]
    rfl
  simp only [ValidateAndGenerateTokens]
  rw [hva]
  dsimp only
  rw [hvrt]
  dsimp only
  rw [huse]

/-- C3: the claim fails on the code. Whenever the access token fails validation and
the rotate nevertheless issues a pair, the issued tokens are bound to the
empty-string subject — the Go zero value returned by the failed access validation —
never to the refresh token's subject, because `ValidateRefreshToken` returns only the
count and `user_id` is not reassigned. -/
theorem c3_fallback_rotation_binds_zero_value_subject
    (accessToken rt : Token) (s : Store) (now : Nat) (a r : Token) (s2 : Store)
    (hacc : (ValidateToken accessToken s now).2.2.isSome)
    (hok : ValidateAndGenerateTokens accessToken rt s now = Except.ok (a, r, s2)) :
    a.subject = "" ∧ r.subject = "" := by
  obtain ⟨m, hva⟩ := validateToken_of_err accessToken s now hacc
  simp only [ValidateAndGenerateTokens] at hok
  rw [hva] at hok
  dsimp only at hok
  rcases hr : (ValidateRefreshToken rt s now) with ⟨cnt, err⟩
  rw [hr] at hok
  rcases err with _ | e2
  · dsimp only at hok
    split at hok
    · cases hok
    · injection hok with h2
      injection h2 with ha h3
      injection h3 with hb hc
      rw [← ha, ← hb]
      exact ⟨rfl, rfl⟩
  · cases hok

/-- C3 witness: at the concrete failing input (invalid access token, live refresh
token of the concrete principal, and a record under the empty id) the rotation
succeeds and both issued tokens carry the empty subject, while the presented refresh
token's subject is the concrete principal. -/
theorem c3_witness :
    R1.subject = aliceId ∧
    ((⟨"", 0, TokenClass.access, 910, true⟩ : Token).subject = "" ∧
      (⟨"", 0, TokenClass.refresh, 604810, true⟩ : Token).subject = "") :=
  ⟨rfl, c3_fallback_rotation_binds_zero_value_subject badAccess R1 store1 10 _ _
    store1After (by decide) rfl⟩

/-- C5: confirmed. After `InvalidateTokens` bumps the principal's epoch counter,
every token issued at or before the pre-bump epoch fails `ValidateToken`, whatever
its expiry. -/
theorem c5_invalidate_all_rejects_prior_tokens
    (tok : Token) (s s2 : Store) (now : Nat) (u : User)
    (hu : lookupUser s tok.subject = some u)
    (hepoch : tok.epoch ≤ u.count)
    (hinv : InvalidateTokens tok.subject s = Except.ok s2) :
    (ValidateToken tok s2 now).2.2.isSome := by
  simp only [InvalidateTokens, hu] at hinv
  injection hinv with h2
  subst h2
  by_cases h1 : tok.genuine = false
  · simp [ValidateToken, h1]
  · by_cases hex : tok.expiry ≤ now
    · simp [ValidateToken, h1, hex]
    · have hl : lookupUser
          (updateUser s tok.subject (fun v => { v with count := v.count + 1 }))
          tok.subject = some { u with count := u.count + 1 } := by
        rw [lookupUser_updateUser, hu]
        rfl
      have hne : tok.epoch ≠ u.count + 1 :=
        Nat.ne_of_lt (Nat.lt_succ_of_le hepoch)
      simp [ValidateToken, h1, hex, hl, hne]

/-- C5 witness: with the concrete principal at epoch 0, a pre-logout access token
fails validation once the stored count has been bumped to 1. -/
theorem c5_witness :
    (ValidateToken goodAccess [(aliceId, { alice with count := 1 })] 10).2.2.isSome :=
  c5_invalidate_all_rejects_prior_tokens goodAccess store0
    [(aliceId, { alice with count := 1 })] 10 alice rfl (by decide) rfl

/-- C7: confirmed. Whenever the access token alone validates, the request still
generates a fresh pair bound to the access token's subject and epoch, stores the new
refresh token, and marks the stored refresh token used — the store is mutated on
every successful authenticated request, not only on the refresh-fallback path. -/
theorem c7_access_valid_path_still_rotates
    (accessToken rt : Token) (s : Store) (now : Nat)
    (hok : (ValidateToken accessToken s now).2.2 = none) :
    ∃ s2, ValidateAndGenerateTokens accessToken rt s now =
        Except.ok ((GenerateTokens accessToken.subject accessToken.epoch s now).1,
          (GenerateTokens accessToken.subject accessToken.epoch s now).2.1, s2) ∧
      (lookupUser s2 accessToken.subject).map User.tokenUsed = some true ∧
      (lookupUser s2 accessToken.subject).map User.refreshToken =
        some (GenerateTokens accessToken.subject accessToken.epoch s now).2.1 := by
  obtain ⟨hva, u, hu, hcnt⟩ := validateToken_of_ok accessToken s now hok
  refine ⟨updateUser (GenerateTokens accessToken.subject accessToken.epoch s now).2.2
    accessToken.subject (fun v => { v with tokenUsed := true }), ?_, ?_, ?_⟩
  · simp only [ValidateAndGenerateTokens, UseToken]
    rw [hva]
    dsimp only
    rw [show lookupUser (GenerateTokens accessToken.subject accessToken.epoch s
        now).2.2 accessToken.subject = some _ from by
      simp only [GenerateTokens]
      try dsimp only
      rw [lookupUser_updateUser, hu]
      rfl]
  · rw [lookupUser_updateUser]
    simp only [GenerateTokens]
    try dsimp only
    rw [lookupUser_updateUser, hu]
    rfl
  · rw [lookupUser_updateUser]
    simp only [GenerateTokens]
    try dsimp only
    rw [lookupUser_updateUser, hu]
    rfl

/-- C7 witness: the concrete principal's valid access token passes, a fresh pair is
issued, and the record ends with the new refresh token stored and the flag used. -/
theorem c7_witness :
    ∃ s2, ValidateAndGenerateTokens goodAccess R1 store0 10 =
        Except.ok ((GenerateTokens goodAccess.subject goodAccess.epoch store0 10).1,
          (GenerateTokens goodAccess.subject goodAccess.epoch store0 10).2.1, s2) ∧
      (lookupUser s2 goodAccess.subject).map User.tokenUsed = some true ∧
      (lookupUser s2 goodAccess.subject).map User.refreshToken =
        some (GenerateTokens goodAccess.subject goodAccess.epoch store0 10).2.1 :=
  c7_access_valid_path_still_rotates goodAccess R1 store0 10 rfl

/-- C8: confirmed. When registration fails at `user.Validate()` or at the
`CreateUser` insert, the 400 response already carries the freshly issued epoch-0
access and refresh tokens in its headers — they were added before the failing check —
while no record for the would-be principal exists in the store. -/
theorem c8_failed_register_response_carries_tokens
    (req : RegisterRequest) (newId : String) (s : Store) (now : Nat)
    (verr cerr : Option String)
    (hfail : verr.isSome ∨ cerr.isSome)
    (hfresh : lookupUser s newId = none) :
    (Register true [] verr cerr req newId s now).1.status = 400 ∧
    (Register true [] verr cerr req newId s now).1.headers =
      [("access_token", (GenerateTokens newId 0 s now).1),
       ("refresh_token", (GenerateTokens newId 0 s now).2.1)] ∧
    lookupUser (Register true [] verr cerr req newId s now).2 newId = none := by
  rcases verr with _ | m
  · rcases cerr with _ | m2
    · simp at hfail
    · refine ⟨?_, ?_, ?_⟩ <;>
        simp [Register, GenerateTokens, lookupUser_updateUser, hfresh]
  · refine ⟨?_, ?_, ?_⟩ <;>
      simp [Register, GenerateTokens, lookupUser_updateUser, hfresh]

/-- C8 witness: a concrete registration whose user validation fails still responds
with status 400 and both freshly issued token headers, and creates no record. -/
theorem c8_witness :
    (Register true [] (some ("user validation failed")) none
        ⟨"bob@example.com", "password123"⟩ ("507f1f77bcf86cd799439099") store0
        10).1.status = 400 ∧
    (Register true [] (some ("user validation failed")) none
        ⟨"bob@example.com", "password123"⟩ ("507f1f77bcf86cd799439099") store0
        10).1.headers =
      [("access_token", (GenerateTokens ("507f1f77bcf86cd799439099") 0 store0 10).1),
       ("refresh_token",
         (GenerateTokens ("507f1f77bcf86cd799439099") 0 store0 10).2.1)] ∧
    lookupUser (Register true [] (some ("user validation failed")) none
        ⟨"bob@example.com", "password123"⟩ ("507f1f77bcf86cd799439099") store0
        10).2 ("507f1f77bcf86cd799439099") = none :=
  c8_failed_register_response_carries_tokens ⟨"bob@example.com", "password123"⟩
    ("507f1f77bcf86cd799439099") store0 10 (some ("user validation failed")) none
    (Or.inl rfl) (by decide)

/-- C2 witness: with the stored refresh token differing from the presented `R1`, the
rotate call returns the 400 non-reuse rejection and issues no pair. -/
theorem c2_witness :
    ValidateAndGenerateTokens badAccess R1 storeMism 10 =
      Except.error ⟨400, "Not Authorized, Error Updating Token Usage"⟩ ∧
    (⟨400, "Not Authorized, Error Updating Token Usage"⟩ : FiberError) ≠
      ⟨400, "Not Authorized, Token Reuse Detected"⟩ :=
  c2_mismatched_refresh_token_rejected badAccess R1 storeMism 10 aliceMism
    (by decide) (by decide) (by decide) (by decide) (by decide) (by decide)

end SocialTodo
